import Mathlib

/-!
Verification of the camera signal-processing core of the DTT25 repository:
blink detection (state machine, validation, metrics), distance estimation
(calibration, EMA smoothing, bucketing) and quality assessment.

The embedding is shallow: each TypeScript class is translated into a Lean
structure holding its mutable fields, and each method into a pure function
from the old state (plus the method arguments) to the new state and result.
JavaScript numbers are modelled as rationals; the square root inside
`Math.hypot` is kept abstract by taking the inter-ocular distance as an
input of the estimation step.
-/

/-! ## Blink detector (src/modules/camera/BlinkDetector.ts and the
identical variant embedded in src/modules/camera/quality) -/

inductive BlinkState where
  | OPEN
  | CLOSING
  | CLOSED
  | OPENING
deriving DecidableEq, Repr

structure BlinkConfig where
  earThreshold : ℚ
  earCloseThreshold : ℚ
  earOpenThreshold : ℚ
  incompleteThreshold : ℚ
  minBlinkDuration : ℚ
  maxBlinkDuration : ℚ
  debounceTime : ℚ
  smoothingWindowSize : ℕ
deriving DecidableEq, Repr

/-- The `DEFAULT_CONFIG` of BlinkDetector.ts: earThreshold 0.2, close 0.25,
open 0.28, incomplete 0.30, durations 80-400 ms, debounce 120 ms, window 3. -/
def defaultBlinkConfig : BlinkConfig :=
  { earThreshold := 1/5
    earCloseThreshold := 1/4
    earOpenThreshold := 7/25
    incompleteThreshold := 3/10
    minBlinkDuration := 80
    maxBlinkDuration := 400
    debounceTime := 120
    smoothingWindowSize := 3 }

structure BlinkResult where
  timestamp : ℚ
  isComplete : Bool
  minOpenness : ℚ
  duration : ℚ
deriving DecidableEq, Repr

structure EyeOpenness where
  left : ℚ
  right : ℚ
  timestamp : ℚ
deriving DecidableEq, Repr

structure BlinkDetector where
  config : BlinkConfig
  state : BlinkState
  blinkHistory : List BlinkResult
  opennessHistory : List EyeOpenness
  smoothingWindow : List ℚ
  monitoringStartTime : ℚ
  baselineOpenness : ℚ
  currentBlinkStart : ℚ
  currentBlinkMinOpenness : ℚ
  lastBlinkTimestamp : ℚ
  isCalibrated : Bool
  calibrationSamples : List ℚ
deriving DecidableEq, Repr

/-- Freshly constructed detector (constructor of BlinkDetector.ts). -/
def BlinkDetector.init (config : BlinkConfig) : BlinkDetector :=
  { config := config
    state := BlinkState.OPEN
    blinkHistory := []
    opennessHistory := []
    smoothingWindow := []
    monitoringStartTime := 0
    baselineOpenness := 7/20
    currentBlinkStart := 0
    currentBlinkMinOpenness := 1
    lastBlinkTimestamp := 0
    isCalibrated := false
    calibrationSamples := [] }

/-- The blink event that `completeBlink` would record at time `timestamp`:
`isComplete` holds when minOpenness / baseline is at most the incomplete
threshold. -/
def BlinkDetector.pendingEvent (d : BlinkDetector) (timestamp : ℚ) : BlinkResult :=
  { timestamp := timestamp
    isComplete :=
      decide (d.currentBlinkMinOpenness / d.baselineOpenness ≤ d.config.incompleteThreshold)
    minOpenness := d.currentBlinkMinOpenness
    duration := timestamp - d.currentBlinkStart }

/-- Model of `completeBlink(timestamp)`: validates duration against
[minBlinkDuration, maxBlinkDuration], debounces against the last accepted
blink, then records the event, updates `lastBlinkTimestamp` and drops
events older than 60 s. -/
def BlinkDetector.completeBlink (d : BlinkDetector) (timestamp : ℚ) : BlinkDetector :=
  let duration := timestamp - d.currentBlinkStart
  if duration < d.config.minBlinkDuration ∨ duration > d.config.maxBlinkDuration then d
  else if timestamp - d.lastBlinkTimestamp < d.config.debounceTime then d
  else
    { d with
      blinkHistory :=
        (d.blinkHistory ++ [d.pendingEvent timestamp]).filter
          (fun b => decide (b.timestamp > timestamp - 60000))
      lastBlinkTimestamp := timestamp }

/-- Model of `updateStateMachine(openness, timestamp)`: four-state hysteresis machine.
`earValue = openness * 0.35` converts smoothed openness back to EAR scale. -/
def BlinkDetector.updateStateMachine (d : BlinkDetector) (openness timestamp : ℚ) :
    BlinkDetector :=
  let earValue := openness * (7/20)
  match d.state with
  | BlinkState.OPEN =>
      if earValue < d.config.earCloseThreshold then
        { d with
          state := BlinkState.CLOSING
          currentBlinkStart := timestamp
          currentBlinkMinOpenness := openness }
      else d
  | BlinkState.CLOSING =>
      let d1 := { d with
        currentBlinkMinOpenness :=
          if openness < d.currentBlinkMinOpenness then openness
          else d.currentBlinkMinOpenness }
      let d2 := if earValue < d.config.earThreshold then
          { d1 with state := BlinkState.CLOSED } else d1
      if earValue > d.config.earOpenThreshold then
        { d2 with state := BlinkState.OPEN } else d2
  | BlinkState.CLOSED =>
      let d1 := { d with
        currentBlinkMinOpenness :=
          if openness < d.currentBlinkMinOpenness then openness
          else d.currentBlinkMinOpenness }
      if earValue ≥ d.config.earThreshold then
        { d1 with state := BlinkState.OPENING } else d1
  | BlinkState.OPENING =>
      let d1 := { d with
        currentBlinkMinOpenness :=
          if openness < d.currentBlinkMinOpenness then openness
          else d.currentBlinkMinOpenness }
      if earValue ≥ d.config.earOpenThreshold then
        { d1.completeBlink timestamp with state := BlinkState.OPEN }
      else d1

/-! ## Blink metrics -/

/-- Computes `Math.round(x * 10) / 10` (JavaScript rounds halves toward +infinity,
as does Mathlib's `round`). -/
def roundTo1 (x : ℚ) : ℚ := (round (x * 10) : ℤ) / 10

/-- Computes `Math.round(x * 100) / 100`. -/
def roundTo2 (x : ℚ) : ℚ := (round (x * 100) : ℤ) / 100

structure BlinkMetrics where
  blinkCount : ℕ
  blinkRate : ℚ
  incompleteBlinkCount : ℕ
  incompleteBlinkRatio : ℚ
  confidence : ℚ
deriving DecidableEq, Repr

/-- Model of `calculateMetrics(durationSeconds, avgFps)` of the engine-level
BlinkDetector.ts: empty history short-circuits to all zeroes; otherwise
confidence 1.0 is discounted by 0.7 (fps < 20) or 0.85 (fps < 24) and by
0.5 when the baseline is uncalibrated, then rounded to two decimals. -/
def BlinkDetector.calculateMetrics (d : BlinkDetector) (durationSeconds avgFps : ℚ) :
    BlinkMetrics :=
  if d.blinkHistory = [] then
    { blinkCount := 0, blinkRate := 0, incompleteBlinkCount := 0
      incompleteBlinkRatio := 0, confidence := 0 }
  else
    let blinkCount := d.blinkHistory.length
    let incompleteBlinkCount := (d.blinkHistory.filter (fun b => !b.isComplete)).length
    let minutes := durationSeconds / 60
    let blinkRate := if minutes > 0 then (blinkCount : ℚ) / minutes else 0
    let incompleteBlinkRatio :=
      if blinkCount > 0 then (incompleteBlinkCount : ℚ) / (blinkCount : ℚ) else 0
    let confidence : ℚ := 1
    let confidence := if avgFps < 20 then confidence * (7/10)
      else if avgFps < 24 then confidence * (17/20) else confidence
    let confidence := if !d.isCalibrated then confidence * (1/2) else confidence
    { blinkCount := blinkCount
      blinkRate := roundTo1 blinkRate
      incompleteBlinkCount := incompleteBlinkCount
      incompleteBlinkRatio := roundTo2 incompleteBlinkRatio
      confidence := roundTo2 confidence }

/-- Model of `calculateMetrics` of the BlinkDetector variant embedded in the quality
module: same as the engine-level one, plus a further ×0.8 discount whenever
`avgFps < 30` (incomplete-blink detection needs high FPS). -/
def BlinkDetector.calculateMetricsQuality (d : BlinkDetector) (durationSeconds avgFps : ℚ) :
    BlinkMetrics :=
  if d.blinkHistory = [] then
    { blinkCount := 0, blinkRate := 0, incompleteBlinkCount := 0
      incompleteBlinkRatio := 0, confidence := 0 }
  else
    let blinkCount := d.blinkHistory.length
    let incompleteBlinkCount := (d.blinkHistory.filter (fun b => !b.isComplete)).length
    let minutes := durationSeconds / 60
    let blinkRate := if minutes > 0 then (blinkCount : ℚ) / minutes else 0
    let incompleteBlinkRatio :=
      if blinkCount > 0 then (incompleteBlinkCount : ℚ) / (blinkCount : ℚ) else 0
    let confidence : ℚ := 1
    let confidence := if avgFps < 20 then confidence * (7/10)
      else if avgFps < 24 then confidence * (17/20) else confidence
    let confidence := if !d.isCalibrated then confidence * (1/2) else confidence
    let confidence := if avgFps < 30 then confidence * (4/5) else confidence
    { blinkCount := blinkCount
      blinkRate := roundTo1 blinkRate
      incompleteBlinkCount := incompleteBlinkCount
      incompleteBlinkRatio := roundTo2 incompleteBlinkRatio
      confidence := roundTo2 confidence }

/-! ## Distance estimator, engine-level
(src/modules/camera/distance/DistanceEstimator.ts) -/

inductive Bucket where
  | NEAR
  | OK
  | FAR
  | UNKNOWN
deriving DecidableEq, Repr

inductive DistFlag where
  | NO_LANDMARKS
  | NOT_CALIBRATED
  | OUT_OF_RANGE
deriving DecidableEq, Repr

structure DistanceResult where
  estCm : ℚ
  confidence : ℚ
  bucket : Bucket
  iodPx : ℚ
  iodNorm : ℚ
  k : ℚ
  rawCm : ℚ
  flags : List DistFlag
deriving DecidableEq, Repr

structure DistV3State where
  calibrationK : Option ℚ
  lastSmoothedCm : Option ℚ
  calibrationSamples : List ℚ
  isCalibrating : Bool
deriving DecidableEq, Repr

/-- Ascending JavaScript `sort((a, b) => a - b)` followed by
`sorted[Math.floor(length / 2)]`. -/
def medianOf (samples : List ℚ) : ℚ :=
  let sorted := samples.insertionSort (· ≤ ·)
  sorted.getD (sorted.length / 2) 0

namespace DistV3

/-- Model of `resetCalibration()`: clears the constant and the smoothing state. -/
def resetCalibration (e : DistV3State) : DistV3State :=
  { e with calibrationK := none, lastSmoothedCm := none }

/-- Model of `finalizeCalibration()`: requires at least 10 samples; on success sets
`K = DEFAULT_TARGET_CM(45) * median(samples)`. -/
def finalizeCalibration (e : DistV3State) : DistV3State :=
  let e1 := { e with isCalibrating := false }
  if e1.calibrationSamples.length < 10 then e1
  else { e1 with calibrationK := some (45 * medianOf e1.calibrationSamples) }

/-- Computes `this.calibrationK || 8500`: JavaScript `||` treats both `null` and `0`
as absent. -/
def effectiveK (e : DistV3State) : ℚ :=
  match e.calibrationK with
  | none => 8500
  | some v => if v = 0 then 8500 else v

/-- One step of the exponential moving average with `ALPHA = 0.2`:
cold state passes the raw value through. -/
def emaStep (last : Option ℚ) (raw : ℚ) : ℚ :=
  match last with
  | none => raw
  | some l => (1/5) * raw + (4/5) * l

/-- The smoothed sequence obtained by feeding raw estimates one by one
through `emaStep`, threading `lastSmoothedCm`. -/
def emaSeq : Option ℚ → List ℚ → List ℚ
  | _, [] => []
  | last, x :: xs =>
      let s := emaStep last x
      s :: emaSeq (some s) xs

/-- Model of `estimate(videoWidth, landmarks)`. The landmark array is abstracted by
its length and by the normalized inter-ocular distance `iodNorm`
(`Math.hypot` of the two eye-corner points, kept abstract). -/
def estimate (e : DistV3State) (videoWidth : ℚ) (landmarkCount : ℕ) (iodNorm : ℚ) :
    DistanceResult × DistV3State :=
  if landmarkCount < 264 then
    ({ estCm := 0, confidence := 0, bucket := Bucket.UNKNOWN, iodPx := 0, iodNorm := 0
       k := e.calibrationK.getD 0, rawCm := 0, flags := [DistFlag.NO_LANDMARKS] }, e)
  else
    let iodPx := iodNorm * videoWidth
    let flags : List DistFlag :=
      match e.calibrationK with
      | none => [DistFlag.NOT_CALIBRATED]
      | some v => if v = 0 then [DistFlag.NOT_CALIBRATED] else []
    let rawCm := effectiveK e / iodPx
    let smoothedCm := emaStep e.lastSmoothedCm rawCm
    let confidence : ℚ := if smoothedCm < 15 ∨ smoothedCm > 120 then 3/10 else 1
    let flags := if smoothedCm < 15 ∨ smoothedCm > 120
      then flags ++ [DistFlag.OUT_OF_RANGE] else flags
    let bucket :=
      if smoothedCm < 30 then Bucket.NEAR
      else if smoothedCm > 60 then Bucket.FAR
      else Bucket.OK
    let bucket := if confidence < 1/2 then Bucket.UNKNOWN else bucket
    ({ estCm := roundTo1 smoothedCm, confidence := confidence, bucket := bucket
       iodPx := iodPx, iodNorm := iodNorm, k := effectiveK e, rawCm := rawCm
       flags := flags },
     { e with lastSmoothedCm := some smoothedCm })

end DistV3

/-! ## Distance estimator, legacy variant
(src/modules/camera/DistanceEstimator.ts) -/

structure LegacyCalibration where
  k : ℚ
  targetCm : ℚ
  iodMedian : Option ℚ
  isNormalized : Bool
deriving DecidableEq, Repr

structure LegacyState where
  calibration : LegacyCalibration
  calibrationSamples : List ℚ
  cmHistory : List ℚ
deriving DecidableEq, Repr

namespace LegacyDistance

/-- Constructor defaults: `k = 5.0`, `targetCm = 50`, normalized. -/
def init : LegacyState :=
  { calibration := { k := 5, targetCm := 50, iodMedian := none, isNormalized := true }
    calibrationSamples := []
    cmHistory := [] }

/-- Model of `finalizeCalibration(targetCm = 50)`: requires at least 5 samples;
on success sets `k = targetCm * median(samples)` and clears the buffer;
on failure returns `false` leaving the estimator untouched. -/
def finalizeCalibration (e : LegacyState) (targetCm : ℚ) : Bool × LegacyState :=
  if e.calibrationSamples.length < 5 then (false, e)
  else
    let medianIOD := medianOf e.calibrationSamples
    (true,
      { e with
        calibration :=
          { k := targetCm * medianIOD, targetCm := targetCm
            iodMedian := some medianIOD, isNormalized := true }
        calibrationSamples := [] })

/-- Model of `classifyBucket(cm)`: NEAR below 40 cm, FAR above 75 cm, else OK. -/
def classifyBucket (cm : ℚ) : Bucket :=
  if cm < 40 then Bucket.NEAR
  else if cm > 75 then Bucket.FAR
  else Bucket.OK

end LegacyDistance

/-! ## Quality monitor (src/modules/camera/quality/QualityMonitor.ts) -/

inductive QualityFlag where
  | FACE_NOT_FOUND
  | LOW_LIGHT
  | LOW_FPS
  | POSE_UNSTABLE
  | EYE_OCCLUDED
  | GLASSES_GLARE_SUSPECTED
  | MULTI_FACE_DETECTED
  | MODEL_WARMING_UP
deriving DecidableEq, Repr

structure QualityMonitorConfig where
  lowLightThreshold : ℚ
  lowFpsThreshold : ℚ
  poseYawThreshold : ℚ
  posePitchThreshold : ℚ
  poseRollThreshold : ℚ
  warmupDuration : ℚ
deriving DecidableEq, Repr

/-- The `DEFAULT_CONFIG` of QualityMonitor.ts. -/
def defaultQualityConfig : QualityMonitorConfig :=
  { lowLightThreshold := 50
    lowFpsThreshold := 20
    poseYawThreshold := 25
    posePitchThreshold := 20
    poseRollThreshold := 15
    warmupDuration := 2500 }

/-- Per-frame inputs of `assessQuality`. Video- and model-derived
quantities (elapsed warm-up time, averaged FPS, face count of the landmark
result, sampled brightness, derived pose angles, eye-occlusion score,
glare detection) are taken as inputs of the pure assessment core. A `null`
landmark result is `faceCount = 0`. -/
structure QualityInput where
  elapsedSinceStart : ℚ
  fps : ℚ
  faceCount : ℕ
  brightness : ℚ
  poseAngles : Option (ℚ × ℚ × ℚ)
  occlusionScore : Option ℚ
  glare : Bool
deriving DecidableEq, Repr

/-- Model of the conditional flag-push-and-discount step that every
quality check of `assessQuality` performs: when `cond` holds the flag is
appended and the confidence multiplied by `factor`. -/
def qualityCheck (cond : Bool) (flag : QualityFlag) (factor : ℚ)
    (p : List QualityFlag × ℚ) : List QualityFlag × ℚ :=
  if cond then (p.1 ++ [flag], p.2 * factor) else p

/-- Holds when the `calculatePoseAngles` result exceeds any configured threshold
(`null` result skips the check). -/
def poseUnstable (cfg : QualityMonitorConfig) : Option (ℚ × ℚ × ℚ) → Bool
  | none => false
  | some angles =>
      decide (|angles.1| > cfg.poseYawThreshold ∨ |angles.2.1| > cfg.posePitchThreshold ∨
        |angles.2.2| > cfg.poseRollThreshold)

/-- Holds when the `detectEyeOcclusion` score is above 0.3 (`null` eye landmarks skip the
check). -/
def occlusionFlagged : Option ℚ → Bool
  | none => false
  | some score => decide (score > 3/10)

/-- Model of `assessQuality`: sequentially raises flags and multiplies the
confidence by the per-defect factor; a face-not-found frame forces
confidence 0 and returns before any of the remaining checks. -/
def assessQuality (cfg : QualityMonitorConfig) (inp : QualityInput) :
    List QualityFlag × ℚ :=
  let p : List QualityFlag × ℚ := ([], 1)
  let p := qualityCheck (decide (inp.elapsedSinceStart < cfg.warmupDuration))
    QualityFlag.MODEL_WARMING_UP (1/2) p
  let p := qualityCheck (decide (inp.fps < cfg.lowFpsThreshold ∧ inp.fps > 0))
    QualityFlag.LOW_FPS (7/10) p
  if inp.faceCount = 0 then
    (p.1 ++ [QualityFlag.FACE_NOT_FOUND], 0)
  else
    let p := qualityCheck (decide (inp.faceCount > 1))
      QualityFlag.MULTI_FACE_DETECTED (3/5) p
    let p := qualityCheck (decide (inp.brightness < cfg.lowLightThreshold))
      QualityFlag.LOW_LIGHT (4/5) p
    let p := qualityCheck (poseUnstable cfg inp.poseAngles)
      QualityFlag.POSE_UNSTABLE (7/10) p
    let p := qualityCheck (occlusionFlagged inp.occlusionScore)
      QualityFlag.EYE_OCCLUDED (3/5) p
    let p := qualityCheck inp.glare
      QualityFlag.GLASSES_GLARE_SUSPECTED (17/20) p
    p

/-- The multiplicative discount attached to each quality flag. A
face-not-found frame is forced to confidence 0, i.e. its factor is 0. -/
def qualityMultiplier : QualityFlag → ℚ
  | QualityFlag.FACE_NOT_FOUND => 0
  | QualityFlag.LOW_LIGHT => 4/5
  | QualityFlag.LOW_FPS => 7/10
  | QualityFlag.POSE_UNSTABLE => 7/10
  | QualityFlag.EYE_OCCLUDED => 3/5
  | QualityFlag.GLASSES_GLARE_SUSPECTED => 17/20
  | QualityFlag.MULTI_FACE_DETECTED => 3/5
  | QualityFlag.MODEL_WARMING_UP => 1/2

/-! ## Burst check (src/modules/camera/CameraEngine.ts, runDistanceBurst) -/

structure BurstResult where
  bucket : Bucket
  estimatedCm : Option ℚ
  confidence : ℚ
  qualityFlags : List QualityFlag × ℚ
  sampleCount : ℕ
  duration : ℚ
deriving DecidableEq, Repr

/-- Decision core of `runDistanceBurst`: an uncalibrated estimator
short-circuits to an UNKNOWN result before the sampling loop; otherwise
the collected smoothed estimates are reduced to their median and
bucketed (30/60 cm). -/
def runDistanceBurst (isCalibrated : Bool) (collectedCms : List ℚ) (ms : ℚ) :
    BurstResult :=
  if !isCalibrated then
    { bucket := Bucket.UNKNOWN, estimatedCm := none, confidence := 0
      qualityFlags := ([], 0), sampleCount := 0, duration := 0 }
  else if collectedCms.isEmpty then
    { bucket := Bucket.UNKNOWN, estimatedCm := none, confidence := 0
      qualityFlags := ([], 0), sampleCount := 0, duration := ms }
  else
    let medianCm := medianOf collectedCms
    let bucket :=
      if medianCm < 30 then Bucket.NEAR
      else if medianCm > 60 then Bucket.FAR
      else Bucket.OK
    { bucket := bucket, estimatedCm := some medianCm, confidence := 9/10
      qualityFlags := ([], 9/10), sampleCount := collectedCms.length, duration := ms }

/-! ## Sample statistics used to assess the smoothing claim -/

def listMean (xs : List ℚ) : ℚ := xs.sum / xs.length

def listVariance (xs : List ℚ) : ℚ :=
  ((xs.map (fun x => (x - listMean xs) ^ 2)).sum) / xs.length

/-! ## Concrete states used by witnesses and counterexamples -/

/-- Fresh engine-level estimator state (nothing loaded from storage). -/
def DistV3.fresh : DistV3State :=
  { calibrationK := none, lastSmoothedCm := none, calibrationSamples := []
    isCalibrating := false }

/-! ## Helper lemmas about completeBlink -/

/-- A candidate violating duration bounds or the debounce window is
silently discarded: the whole detector state is unchanged. -/
theorem completeBlink_of_invalid (d : BlinkDetector) (t : ℚ)
    (h : t - d.currentBlinkStart < d.config.minBlinkDuration ∨
      t - d.currentBlinkStart > d.config.maxBlinkDuration ∨
      t - d.lastBlinkTimestamp < d.config.debounceTime) :
    d.completeBlink t = d := by
  unfold BlinkDetector.completeBlink
  rcases h with h | h | h
  · rw [if_pos (Or.inl h)]
  · rw [if_pos (Or.inr h)]
  · by_cases hdur : t - d.currentBlinkStart < d.config.minBlinkDuration ∨
        t - d.currentBlinkStart > d.config.maxBlinkDuration
    · rw [if_pos hdur]
    · rw [if_neg hdur, if_pos h]

/-- A valid candidate is recorded: the event is appended, events older
than 60 s are dropped and the debounce timestamp is advanced. -/
theorem completeBlink_of_valid (d : BlinkDetector) (t : ℚ)
    (h1 : d.config.minBlinkDuration ≤ t - d.currentBlinkStart)
    (h2 : t - d.currentBlinkStart ≤ d.config.maxBlinkDuration)
    (h3 : d.config.debounceTime ≤ t - d.lastBlinkTimestamp) :
    d.completeBlink t =
      { d with
        blinkHistory :=
          (d.blinkHistory ++ [d.pendingEvent t]).filter
            (fun b => decide (b.timestamp > t - 60000))
        lastBlinkTimestamp := t } := by
  unfold BlinkDetector.completeBlink
  rw [if_neg (by push_neg; exact ⟨h1, h2⟩), if_neg (not_lt.mpr h3)]

/-- Property a blink event must satisfy to ever be recorded. -/
def durationWithinBounds (cfg : BlinkConfig) (b : BlinkResult) : Prop :=
  cfg.minBlinkDuration ≤ b.duration ∧ b.duration ≤ cfg.maxBlinkDuration

/-! ## Claim theorems -/

/-- C9: while the distance estimator is uncalibrated, `runDistanceBurst`
returns the UNKNOWN result with confidence 0, sample count 0 and duration 0,
whatever samples would have been available: the sampling loop is never
consulted. -/
theorem burst_uncalibrated_short_circuit :
    ∀ (collectedCms : List ℚ) (ms : ℚ),
      runDistanceBurst false collectedCms ms =
        { bucket := Bucket.UNKNOWN, estimatedCm := none, confidence := 0
          qualityFlags := ([], 0), sampleCount := 0, duration := 0 } := by
  intro collectedCms ms
  rfl

/-- C8: a validated blink is recorded with
`isComplete = (minOpenness / baseline ≤ incompleteThreshold)`, i.e. it is
classified incomplete exactly when the ratio exceeds the threshold. -/
theorem incomplete_blink_classification (d : BlinkDetector) (t : ℚ)
    (h1 : d.config.minBlinkDuration ≤ t - d.currentBlinkStart)
    (h2 : t - d.currentBlinkStart ≤ d.config.maxBlinkDuration)
    (h3 : d.config.debounceTime ≤ t - d.lastBlinkTimestamp) :
    (d.completeBlink t).blinkHistory =
      (d.blinkHistory ++ [d.pendingEvent t]).filter
        (fun b => decide (b.timestamp > t - 60000)) ∧
    ((d.pendingEvent t).isComplete = true ↔
      d.currentBlinkMinOpenness / d.baselineOpenness ≤ d.config.incompleteThreshold) ∧
    ((d.pendingEvent t).isComplete = false ↔
      d.config.incompleteThreshold < d.currentBlinkMinOpenness / d.baselineOpenness) := by
  refine ⟨?_, ?_, ?_⟩
  · rw [completeBlink_of_valid d t h1 h2 h3]
  · simp [BlinkDetector.pendingEvent]
  · simp [BlinkDetector.pendingEvent, not_le]

/-- Concrete detector used to exercise `incomplete_blink_classification`:
a blink that started at 100 ms, finishing at 300 ms. -/
def blinkWitnessState : BlinkDetector :=
  { BlinkDetector.init defaultBlinkConfig with currentBlinkStart := 100 }

/-- Witness for C8 at the concrete detector. -/
theorem incomplete_blink_classification_witness :
    (blinkWitnessState.config.minBlinkDuration ≤ 300 - blinkWitnessState.currentBlinkStart ∧
      300 - blinkWitnessState.currentBlinkStart ≤ blinkWitnessState.config.maxBlinkDuration ∧
      blinkWitnessState.config.debounceTime ≤ 300 - blinkWitnessState.lastBlinkTimestamp) ∧
    ((blinkWitnessState.pendingEvent 300).isComplete = true ↔
      blinkWitnessState.currentBlinkMinOpenness / blinkWitnessState.baselineOpenness ≤
        blinkWitnessState.config.incompleteThreshold) := by
  have h1 : blinkWitnessState.config.minBlinkDuration ≤
      300 - blinkWitnessState.currentBlinkStart := by
    norm_num [blinkWitnessState, BlinkDetector.init, defaultBlinkConfig]
  have h2 : 300 - blinkWitnessState.currentBlinkStart ≤
      blinkWitnessState.config.maxBlinkDuration := by
    norm_num [blinkWitnessState, BlinkDetector.init, defaultBlinkConfig]
  have h3 : blinkWitnessState.config.debounceTime ≤
      300 - blinkWitnessState.lastBlinkTimestamp := by
    norm_num [blinkWitnessState, BlinkDetector.init, defaultBlinkConfig]
  exact ⟨⟨h1, h2, h3⟩, (incomplete_blink_classification blinkWitnessState 300 h1 h2 h3).2.1⟩

/-- C2: both `finalizeCalibration` implementations set
`k = targetCm * median(samples)` once the minimum sample count (10
engine-level, 5 legacy) is reached, leave the stored constant unchanged
below it, and are deterministic in the sample buffer, so recalibrating
with identical samples reproduces the identical constant. -/
theorem finalize_calibration_median :
    (∀ e : DistV3State, 10 ≤ e.calibrationSamples.length →
      (DistV3.finalizeCalibration e).calibrationK =
        some (45 * medianOf e.calibrationSamples)) ∧
    (∀ e : DistV3State, e.calibrationSamples.length < 10 →
      (DistV3.finalizeCalibration e).calibrationK = e.calibrationK) ∧
    (∀ e1 e2 : DistV3State, e1.calibrationSamples = e2.calibrationSamples →
      10 ≤ e1.calibrationSamples.length →
      (DistV3.finalizeCalibration e1).calibrationK =
        (DistV3.finalizeCalibration e2).calibrationK) ∧
    (∀ (e : LegacyState) (targetCm : ℚ), 5 ≤ e.calibrationSamples.length →
      (LegacyDistance.finalizeCalibration e targetCm).1 = true ∧
      ((LegacyDistance.finalizeCalibration e targetCm).2).calibration.k =
        targetCm * medianOf e.calibrationSamples) ∧
    (∀ (e : LegacyState) (targetCm : ℚ), e.calibrationSamples.length < 5 →
      LegacyDistance.finalizeCalibration e targetCm = (false, e)) := by
  refine ⟨?_, ?_, ?_, ?_, ?_⟩
  · intro e h
    unfold DistV3.finalizeCalibration
    rw [if_neg (by simpa using Nat.not_lt.mpr h)]
  · intro e h
    unfold DistV3.finalizeCalibration
    rw [if_pos (by simpa using h)]
  · intro e1 e2 hsame h
    unfold DistV3.finalizeCalibration
    rw [if_neg (by simpa using Nat.not_lt.mpr h),
      if_neg (by simp only [← hsame]; simpa using Nat.not_lt.mpr h)]
    simp [hsame]
  · intro e targetCm h
    unfold LegacyDistance.finalizeCalibration
    rw [if_neg (Nat.not_lt.mpr h)]
    exact ⟨rfl, rfl⟩
  · intro e targetCm h
    unfold LegacyDistance.finalizeCalibration
    rw [if_pos h]

/-- Estimator state holding the 12 stable calibration samples of the
spec's worked scenario. -/
def calibWitnessState : DistV3State :=
  { DistV3.fresh with
    calibrationSamples := [200, 202, 204, 206, 208, 210, 201, 203, 205, 207, 209, 211] }

/-- Witness for C2: finalizing on 12 samples sets the engine constant to
45 times their median. -/
theorem finalize_calibration_median_witness :
    10 ≤ calibWitnessState.calibrationSamples.length ∧
    (DistV3.finalizeCalibration calibWitnessState).calibrationK =
      some (45 * medianOf calibWitnessState.calibrationSamples) := by
  have h : 10 ≤ calibWitnessState.calibrationSamples.length := by
    norm_num [calibWitnessState, DistV3.fresh]
  exact ⟨h, finalize_calibration_median.1 calibWitnessState h⟩

/-- C1: a blink event is recorded only when its duration lies within
[minBlinkDuration, maxBlinkDuration] and its timestamp clears the debounce
window; any violating candidate leaves the detector untouched, and both
properties are invariants of the whole history: every recorded event is
duration-valid and successive events are at least `debounceTime` apart. -/
theorem blink_event_validation_invariant (d : BlinkDetector) (t : ℚ) :
    ((t - d.currentBlinkStart < d.config.minBlinkDuration ∨
        t - d.currentBlinkStart > d.config.maxBlinkDuration ∨
        t - d.lastBlinkTimestamp < d.config.debounceTime) →
      d.completeBlink t = d) ∧
    ((d.config.minBlinkDuration ≤ t - d.currentBlinkStart ∧
        t - d.currentBlinkStart ≤ d.config.maxBlinkDuration ∧
        d.config.debounceTime ≤ t - d.lastBlinkTimestamp) →
      (d.completeBlink t).lastBlinkTimestamp = t ∧
      (d.completeBlink t).blinkHistory =
        (d.blinkHistory ++ [d.pendingEvent t]).filter
          (fun b => decide (b.timestamp > t - 60000))) ∧
    ((∀ b ∈ d.blinkHistory, durationWithinBounds d.config b) →
      ∀ b ∈ (d.completeBlink t).blinkHistory, durationWithinBounds d.config b) ∧
    ((0 ≤ d.config.debounceTime ∧
        d.blinkHistory.Pairwise
          (fun a b => d.config.debounceTime ≤ b.timestamp - a.timestamp) ∧
        (∀ b ∈ d.blinkHistory, b.timestamp ≤ d.lastBlinkTimestamp)) →
      (d.completeBlink t).blinkHistory.Pairwise
        (fun a b => d.config.debounceTime ≤ b.timestamp - a.timestamp) ∧
      (∀ b ∈ (d.completeBlink t).blinkHistory,
        b.timestamp ≤ (d.completeBlink t).lastBlinkTimestamp)) := by
  by_cases hv : d.config.minBlinkDuration ≤ t - d.currentBlinkStart ∧
      t - d.currentBlinkStart ≤ d.config.maxBlinkDuration ∧
      d.config.debounceTime ≤ t - d.lastBlinkTimestamp
  · obtain ⟨h1, h2, h3⟩ := hv
    have hrec := completeBlink_of_valid d t h1 h2 h3
    refine ⟨?_, ?_, ?_, ?_⟩
    · rintro (h | h | h) <;> [exact absurd h (not_lt.mpr h1);
        exact absurd h (not_lt.mpr h2); exact absurd h (not_lt.mpr h3)]
    · intro _
      rw [hrec]
      exact ⟨rfl, rfl⟩
    · intro hall b hb
      rw [hrec] at hb
      simp only [List.mem_filter, List.mem_append, List.mem_singleton] at hb
      rcases hb.1 with hb' | hb'
      · exact hall b hb'
      · subst hb'
        exact ⟨by simpa [BlinkDetector.pendingEvent] using h1,
          by simpa [BlinkDetector.pendingEvent] using h2⟩
    · rintro ⟨hdb, hpw, hts⟩
      rw [hrec]
      constructor
      · apply List.Pairwise.sublist (List.filter_sublist _)
        rw [List.pairwise_append]
        refine ⟨hpw, List.pairwise_singleton _ _, ?_⟩
        intro a ha b hb
        simp only [List.mem_singleton] at hb
        subst hb
        have := hts a ha
        simp only [BlinkDetector.pendingEvent]
        linarith
      · intro b hb
        simp only [List.mem_filter, List.mem_append, List.mem_singleton] at hb
        rcases hb.1 with hb' | hb'
        · have := hts b hb'
          linarith
        · subst hb'
          simp [BlinkDetector.pendingEvent]
  · push_neg at hv
    have hinv : t - d.currentBlinkStart < d.config.minBlinkDuration ∨
        t - d.currentBlinkStart > d.config.maxBlinkDuration ∨
        t - d.lastBlinkTimestamp < d.config.debounceTime := by
      by_cases ha : d.config.minBlinkDuration ≤ t - d.currentBlinkStart
      · by_cases hb : t - d.currentBlinkStart ≤ d.config.maxBlinkDuration
        · exact Or.inr (Or.inr (hv ha hb))
        · exact Or.inr (Or.inl (not_le.mp hb))
      · exact Or.inl (not_le.mp ha)
    have hrec := completeBlink_of_invalid d t hinv
    refine ⟨fun _ => hrec, ?_, ?_, ?_⟩
    · rintro ⟨h1, h2, h3⟩
      exact absurd (hv h1 h2) (not_lt.mpr h3)
    · intro hall b hb
      rw [hrec] at hb
      exact hall b hb
    · rintro ⟨hdb, hpw, hts⟩
      rw [hrec]
      exact ⟨hpw, hts⟩

/-- Detector used to exercise the recording branch of C1. -/
def blinkInvariantWitnessState : BlinkDetector :=
  { BlinkDetector.init defaultBlinkConfig with currentBlinkStart := 50 }

/-- Witness for C1: a 250 ms blink ending at 300 ms, 300 ms after the last
accepted blink, is recorded and advances the debounce timestamp. -/
theorem blink_event_validation_invariant_witness :
    (blinkInvariantWitnessState.config.minBlinkDuration ≤
        300 - blinkInvariantWitnessState.currentBlinkStart ∧
      300 - blinkInvariantWitnessState.currentBlinkStart ≤
        blinkInvariantWitnessState.config.maxBlinkDuration ∧
      blinkInvariantWitnessState.config.debounceTime ≤
        300 - blinkInvariantWitnessState.lastBlinkTimestamp) ∧
    (blinkInvariantWitnessState.completeBlink 300).lastBlinkTimestamp = 300 := by
  have hv : blinkInvariantWitnessState.config.minBlinkDuration ≤
      300 - blinkInvariantWitnessState.currentBlinkStart ∧
      300 - blinkInvariantWitnessState.currentBlinkStart ≤
        blinkInvariantWitnessState.config.maxBlinkDuration ∧
      blinkInvariantWitnessState.config.debounceTime ≤
        300 - blinkInvariantWitnessState.lastBlinkTimestamp := by
    refine ⟨?_, ?_, ?_⟩ <;>
      norm_num [blinkInvariantWitnessState, BlinkDetector.init, defaultBlinkConfig]
  exact ⟨hv, ((blink_event_validation_invariant blinkInvariantWitnessState 300).2.1 hv).1⟩

/-- C3 (amended): complete characterization of `updateStateMachine` with
`earValue = openness * 0.35`: OPEN → CLOSING strictly below the close
threshold; in CLOSING the final state is OPEN strictly above the open
threshold, else CLOSED strictly below the blink threshold, else CLOSING;
CLOSED → OPENING at or above (≥) the blink threshold; OPENING finalizes
the blink and returns to OPEN at or above (≥) the open threshold. The
running minimum openness is updated on every frame spent in CLOSING,
CLOSED and OPENING. -/
theorem state_machine_transition_characterization (d : BlinkDetector) (openness t : ℚ) :
    (d.state = BlinkState.OPEN →
      d.updateStateMachine openness t =
        (if openness * (7/20) < d.config.earCloseThreshold then
          { d with
            state := BlinkState.CLOSING
            currentBlinkStart := t
            currentBlinkMinOpenness := openness }
         else d)) ∧
    (d.state = BlinkState.CLOSING →
      d.updateStateMachine openness t =
        { d with
          currentBlinkMinOpenness := min d.currentBlinkMinOpenness openness
          state :=
            if openness * (7/20) > d.config.earOpenThreshold then BlinkState.OPEN
            else if openness * (7/20) < d.config.earThreshold then BlinkState.CLOSED
            else BlinkState.CLOSING }) ∧
    (d.state = BlinkState.CLOSED →
      d.updateStateMachine openness t =
        { d with
          currentBlinkMinOpenness := min d.currentBlinkMinOpenness openness
          state :=
            if openness * (7/20) ≥ d.config.earThreshold then BlinkState.OPENING
            else BlinkState.CLOSED }) ∧
    (d.state = BlinkState.OPENING →
      d.updateStateMachine openness t =
        (if openness * (7/20) ≥ d.config.earOpenThreshold then
          { ({ d with
              currentBlinkMinOpenness :=
                min d.currentBlinkMinOpenness openness }).completeBlink t with
            state := BlinkState.OPEN }
         else
          { d with
            currentBlinkMinOpenness := min d.currentBlinkMinOpenness openness })) := by
  have hmin : (if openness < d.currentBlinkMinOpenness then openness
      else d.currentBlinkMinOpenness) = min d.currentBlinkMinOpenness openness := by
    rcases lt_or_le openness d.currentBlinkMinOpenness with h | h
    · rw [if_pos h, min_eq_right h.le]
    · rw [if_neg (not_lt.mpr h), min_eq_left h]
  refine ⟨?_, ?_, ?_, ?_⟩
  · intro hst
    unfold BlinkDetector.updateStateMachine
    rw [hst]
  · intro hst
    unfold BlinkDetector.updateStateMachine
    rw [hst]
    simp only [hmin]
    all_goals split_ifs <;> rfl
  · intro hst
    unfold BlinkDetector.updateStateMachine
    rw [hst]
    simp only [hmin]
    all_goals split_ifs <;> rfl
  · intro hst
    unfold BlinkDetector.updateStateMachine
    rw [hst]
    simp only [hmin]

/-- Detector sitting in the CLOSED state with an eye-openness history. -/
def closedStateDetector : BlinkDetector :=
  { BlinkDetector.init defaultBlinkConfig with
    state := BlinkState.CLOSED
    currentBlinkStart := -100
    currentBlinkMinOpenness := 1/10 }

/-- Detector sitting in the OPENING state about to finalize a blink that
started 100 ms ago, 1000 ms after the previous accepted blink. -/
def openingStateDetector : BlinkDetector :=
  { BlinkDetector.init defaultBlinkConfig with
    state := BlinkState.OPENING
    currentBlinkStart := -100
    currentBlinkMinOpenness := 1/10
    lastBlinkTimestamp := -1000 }

/-- C3 counterexample: with the default thresholds, an EAR sample exactly
equal to the blink threshold (openness 4/7, EAR = 0.20) moves CLOSED to
OPENING even though EAR did not rise above the threshold, and an EAR
sample exactly equal to the open threshold (openness 4/5, EAR = 0.28)
finalizes the blink from OPENING even though EAR did not exceed the
threshold — the code compares with ≥, the claim with strict >. -/
theorem state_machine_boundary_counterexample :
    (closedStateDetector.updateStateMachine (4/7) 0).state = BlinkState.OPENING ∧
    ¬((4/7 : ℚ) * (7/20) > closedStateDetector.config.earThreshold) ∧
    (openingStateDetector.updateStateMachine (4/5) 0).state = BlinkState.OPEN ∧
    ((openingStateDetector.updateStateMachine (4/5) 0).blinkHistory).length = 1 ∧
    ¬((4/5 : ℚ) * (7/20) > openingStateDetector.config.earOpenThreshold) := by
  refine ⟨?_, ?_, ?_, ?_, ?_⟩
  · norm_num [closedStateDetector, BlinkDetector.init, defaultBlinkConfig,
      BlinkDetector.updateStateMachine]
  · norm_num [closedStateDetector, BlinkDetector.init, defaultBlinkConfig]
  · norm_num [openingStateDetector, BlinkDetector.init, defaultBlinkConfig,
      BlinkDetector.updateStateMachine, BlinkDetector.completeBlink]
  · norm_num [openingStateDetector, BlinkDetector.init, defaultBlinkConfig,
      BlinkDetector.updateStateMachine, BlinkDetector.completeBlink,
      BlinkDetector.pendingEvent]
  · norm_num [openingStateDetector, BlinkDetector.init, defaultBlinkConfig]

/-- Witness for C3: the characterization applied to the concrete CLOSED
detector. -/
theorem state_machine_transition_characterization_witness :
    closedStateDetector.state = BlinkState.CLOSED ∧
    closedStateDetector.updateStateMachine (4/7) 0 =
      { closedStateDetector with
        currentBlinkMinOpenness :=
          min closedStateDetector.currentBlinkMinOpenness (4/7)
        state :=
          if (4/7 : ℚ) * (7/20) ≥ closedStateDetector.config.earThreshold then
            BlinkState.OPENING
          else BlinkState.CLOSED } :=
  ⟨rfl,
    (state_machine_transition_characterization closedStateDetector (4/7) 0).2.2.1 rfl⟩

/-- Invariant carried through the quality checks: the running confidence
is the product of the multipliers of the flags raised so far, and stays
in [0, 1]. -/
def QualityInvariant (p : List QualityFlag × ℚ) : Prop :=
  p.2 = (p.1.map qualityMultiplier).prod ∧ 0 ≤ p.2 ∧ p.2 ≤ 1

theorem qualityCheck_inv {cond : Bool} {flag : QualityFlag} {factor : ℚ}
    {p : List QualityFlag × ℚ} (hf : qualityMultiplier flag = factor)
    (h0 : 0 ≤ factor) (h1 : factor ≤ 1) (h : QualityInvariant p) :
    QualityInvariant (qualityCheck cond flag factor p) := by
  obtain ⟨hprod, hlo, hhi⟩ := h
  cases cond
  · exact ⟨hprod, hlo, hhi⟩
  · refine ⟨?_, mul_nonneg hlo h0, mul_le_one₀ hhi h0 h1⟩
    simp [qualityCheck, hprod, hf, List.map_append, List.prod_append]

theorem qualityCheck_mem {cond : Bool} {flag : QualityFlag} {factor : ℚ}
    {p : List QualityFlag × ℚ} {f : QualityFlag}
    (h : f ∈ (qualityCheck cond flag factor p).1) : f ∈ p.1 ∨ f = flag := by
  cases cond
  · exact Or.inl h
  · simpa [qualityCheck] using h

theorem prod_face_zero (l : List QualityFlag) :
    (((l ++ [QualityFlag.FACE_NOT_FOUND]).map qualityMultiplier)).prod = 0 := by
  simp [List.map_append, List.prod_append, qualityMultiplier]

/-- C4: the assessed confidence equals the product of the per-defect
multipliers of exactly the flags raised (face-not-found carrying factor 0),
always lies in [0, 1], and a face-not-found frame yields confidence
exactly 0 with none of the multi-face / lighting / pose / occlusion /
glare checks run: only warm-up, low-FPS and face-not-found flags can be
present. -/
theorem quality_confidence_product (cfg : QualityMonitorConfig) (inp : QualityInput) :
    (assessQuality cfg inp).2 =
      ((assessQuality cfg inp).1.map qualityMultiplier).prod ∧
    0 ≤ (assessQuality cfg inp).2 ∧ (assessQuality cfg inp).2 ≤ 1 ∧
    (inp.faceCount = 0 →
      (assessQuality cfg inp).2 = 0 ∧
      ∀ f ∈ (assessQuality cfg inp).1,
        f = QualityFlag.MODEL_WARMING_UP ∨ f = QualityFlag.LOW_FPS ∨
          f = QualityFlag.FACE_NOT_FOUND) := by
  have hQ : QualityInvariant (assessQuality cfg inp) := by
    by_cases hfc : inp.faceCount = 0
    · simp only [assessQuality, if_pos hfc]
      exact ⟨(prod_face_zero _).symm, le_refl 0, by norm_num⟩
    · simp only [assessQuality, if_neg hfc]
      apply qualityCheck_inv rfl (by norm_num [qualityMultiplier]) (by norm_num [qualityMultiplier])
      apply qualityCheck_inv rfl (by norm_num [qualityMultiplier]) (by norm_num [qualityMultiplier])
      apply qualityCheck_inv rfl (by norm_num [qualityMultiplier]) (by norm_num [qualityMultiplier])
      apply qualityCheck_inv rfl (by norm_num [qualityMultiplier]) (by norm_num [qualityMultiplier])
      apply qualityCheck_inv rfl (by norm_num [qualityMultiplier]) (by norm_num [qualityMultiplier])
      apply qualityCheck_inv rfl (by norm_num [qualityMultiplier]) (by norm_num [qualityMultiplier])
      apply qualityCheck_inv rfl (by norm_num [qualityMultiplier]) (by norm_num [qualityMultiplier])
      exact ⟨by simp, by norm_num, by norm_num⟩
  refine ⟨hQ.1, hQ.2.1, hQ.2.2, fun hfc => ⟨?_, ?_⟩⟩
  · simp only [assessQuality, if_pos hfc]
  · intro f hf
    simp only [assessQuality, if_pos hfc] at hf
    rcases List.mem_append.mp hf with hf' | hf'
    · rcases qualityCheck_mem hf' with hf'' | hf''
      · rcases qualityCheck_mem hf'' with hf''' | hf'''
        · simp at hf'''
        · exact Or.inl hf'''
      · exact Or.inr (Or.inl hf'')
    · exact Or.inr (Or.inr (by simpa using hf'))

/-- Frame input with no detected face, used to exercise C4. -/
def noFaceInput : QualityInput :=
  { elapsedSinceStart := 3000, fps := 30, faceCount := 0, brightness := 100
    poseAngles := none, occlusionScore := none, glare := false }

/-- Witness for C4: a face-not-found frame assessed with the default
configuration yields confidence exactly 0. -/
theorem quality_confidence_product_witness :
    noFaceInput.faceCount = 0 ∧
    (assessQuality defaultQualityConfig noFaceInput).2 = 0 :=
  ⟨rfl, ((quality_confidence_product defaultQualityConfig noFaceInput).2.2.2 rfl).1⟩

/-- Raw distance sequence used to refute the variance claim: the geometric
sequence `(4/5)^k`, k = 0..19, scaled by `5^19` to integer values. It
resonates with the EMA pole at `1 - ALPHA = 0.8`. -/
def rawSeqC5 : List ℚ :=
  [19073486328125, 15258789062500, 12207031250000, 9765625000000, 7812500000000,
   6250000000000, 5000000000000, 4000000000000, 3200000000000, 2560000000000,
   2048000000000, 1638400000000, 1310720000000, 1048576000000, 838860800000,
   671088640000, 536870912000, 429496729600, 343597383680, 274877906944]

/-- C5 counterexample: the EMA-smoothed sequence of these raw estimates has
STRICTLY HIGHER variance than the raw sequence, refuting the claim that
smoothing always lowers the variance. -/
theorem ema_variance_counterexample :
    listVariance rawSeqC5 < listVariance (DistV3.emaSeq none rawSeqC5) := by
  norm_num [rawSeqC5, DistV3.emaSeq, DistV3.emaStep, listVariance, listMean,
    List.sum_cons, List.sum_nil, List.map_cons, List.map_nil,
    List.length_cons, List.length_nil]

/-- C5 (amended): EMA smoothing does not in general lower the variance of
the estimate sequence; what holds is that each smoothing step is the
convex combination `0.2 * raw + 0.8 * previous`, so each smoothed value
lies between the previous smoothed value and the raw value, and
`resetCalibration()` clears both the constant and the smoothing state so
that the next estimate's smoothed value equals its raw value. -/
theorem ema_smoothing_behavior :
    (∀ e : DistV3State, (DistV3.resetCalibration e).lastSmoothedCm = none ∧
      (DistV3.resetCalibration e).calibrationK = none) ∧
    (∀ raw : ℚ, DistV3.emaStep none raw = raw) ∧
    (∀ l raw : ℚ, DistV3.emaStep (some l) raw = (1/5) * raw + (4/5) * l ∧
      min l raw ≤ DistV3.emaStep (some l) raw ∧
      DistV3.emaStep (some l) raw ≤ max l raw) ∧
    (∀ (e : DistV3State) (w : ℚ) (n : ℕ) (iod : ℚ), 264 ≤ n →
      ((DistV3.estimate e w n iod).2).lastSmoothedCm =
        some (DistV3.emaStep e.lastSmoothedCm (DistV3.effectiveK e / (iod * w)))) := by
  refine ⟨fun e => ⟨rfl, rfl⟩, fun raw => rfl, fun l raw => ⟨rfl, ?_, ?_⟩, ?_⟩
  · rcases le_total l raw with h | h
    · rw [min_eq_left h]
      simp only [DistV3.emaStep]
      linarith
    · rw [min_eq_right h]
      simp only [DistV3.emaStep]
      linarith
  · rcases le_total l raw with h | h
    · rw [max_eq_right h]
      simp only [DistV3.emaStep]
      linarith
    · rw [max_eq_left h]
      simp only [DistV3.emaStep]
      linarith
  · intro e w n iod h
    unfold DistV3.estimate
    rw [if_neg (Nat.not_lt.mpr h)]

/-- Witness for C5: the estimate step applied to a fresh estimator on a
full 478-point landmark frame threads its smoothed value through
`emaStep`. -/
theorem ema_smoothing_behavior_witness :
    264 ≤ 478 ∧
    ((DistV3.estimate DistV3.fresh 640 478 (1/10)).2).lastSmoothedCm =
      some (DistV3.emaStep DistV3.fresh.lastSmoothedCm
        (DistV3.effectiveK DistV3.fresh / ((1/10) * 640))) :=
  ⟨by norm_num,
    ema_smoothing_behavior.2.2.2 DistV3.fresh 640 478 (1/10) (by norm_num)⟩

/-- C6 counterexample: the legacy estimator's `classifyBucket` classifies a
smoothed distance of 35 cm as NEAR, although 35 cm lies between the claimed
near threshold of 30 cm and far threshold of 60 cm and should then be OK —
the legacy variant uses 40 cm / 75 cm thresholds instead. -/
theorem legacy_bucket_threshold_counterexample :
    LegacyDistance.classifyBucket 35 = Bucket.NEAR ∧
    (30 : ℚ) ≤ 35 ∧ (35 : ℚ) ≤ 60 := by
  refine ⟨?_, by norm_num, by norm_num⟩
  norm_num [LegacyDistance.classifyBucket]

/-- C6 (amended): the engine-level estimator buckets the smoothed value at
30 cm (NEAR) and 60 cm (FAR), penalizes confidence to 0.3 outside the
plausible 15-120 cm range and reports UNKNOWN there (0.3 < the 0.5
usability threshold); the legacy variant's `classifyBucket` instead uses
40 cm and 75 cm and never reports UNKNOWN. -/
theorem distance_bucket_classification :
    (∀ (e : DistV3State) (w : ℚ) (n : ℕ) (iod : ℚ), 264 ≤ n →
      ∃ s : ℚ, ((DistV3.estimate e w n iod).2).lastSmoothedCm = some s ∧
        ((DistV3.estimate e w n iod).1).confidence =
          (if s < 15 ∨ s > 120 then 3/10 else 1) ∧
        ((DistV3.estimate e w n iod).1).bucket =
          (if s < 15 ∨ s > 120 then Bucket.UNKNOWN
           else if s < 30 then Bucket.NEAR
           else if s > 60 then Bucket.FAR
           else Bucket.OK)) ∧
    (∀ cm : ℚ,
      (LegacyDistance.classifyBucket cm = Bucket.NEAR ↔ cm < 40) ∧
      (LegacyDistance.classifyBucket cm = Bucket.FAR ↔ 75 < cm) ∧
      (LegacyDistance.classifyBucket cm = Bucket.OK ↔ 40 ≤ cm ∧ cm ≤ 75)) := by
  constructor
  · intro e w n iod h
    refine ⟨DistV3.emaStep e.lastSmoothedCm (DistV3.effectiveK e / (iod * w)), ?_, ?_, ?_⟩
    · unfold DistV3.estimate
      rw [if_neg (Nat.not_lt.mpr h)]
    · unfold DistV3.estimate
      rw [if_neg (Nat.not_lt.mpr h)]
    · unfold DistV3.estimate
      rw [if_neg (Nat.not_lt.mpr h)]
      by_cases hr : DistV3.emaStep e.lastSmoothedCm (DistV3.effectiveK e / (iod * w)) < 15 ∨
          DistV3.emaStep e.lastSmoothedCm (DistV3.effectiveK e / (iod * w)) > 120
      · simp only [if_pos hr]
        norm_num
      · simp only [if_neg hr]
        norm_num
  · intro cm
    unfold LegacyDistance.classifyBucket
    split_ifs with h1 h2
    · refine ⟨by simp [h1], ?_, ?_⟩
      · simp only [iff_false_intro (by linarith : ¬(75 < cm))]
      · simp only [iff_false_intro (fun hc : 40 ≤ cm ∧ cm ≤ 75 => absurd h1 (not_lt.mpr hc.1))]
    · refine ⟨?_, by simp [h2], ?_⟩
      · simp only [iff_false_intro h1]
      · simp only [iff_false_intro (fun hc : 40 ≤ cm ∧ cm ≤ 75 => absurd h2 (not_lt.mpr hc.2))]
    · refine ⟨?_, ?_, ?_⟩
      · simp only [iff_false_intro h1]
      · simp only [iff_false_intro h2]
      · simp only [iff_true_intro (⟨not_lt.mp h1, not_lt.mp h2⟩ : 40 ≤ cm ∧ cm ≤ 75)]

/-- Witness for C6: bucket characterization applied to a fresh estimator
and a concrete 478-point frame. -/
theorem distance_bucket_classification_witness :
    264 ≤ 478 ∧
    ∃ s : ℚ, ((DistV3.estimate DistV3.fresh 640 478 (1/10)).2).lastSmoothedCm = some s ∧
      ((DistV3.estimate DistV3.fresh 640 478 (1/10)).1).confidence =
        (if s < 15 ∨ s > 120 then 3/10 else 1) ∧
      ((DistV3.estimate DistV3.fresh 640 478 (1/10)).1).bucket =
        (if s < 15 ∨ s > 120 then Bucket.UNKNOWN
         else if s < 30 then Bucket.NEAR
         else if s > 60 then Bucket.FAR
         else Bucket.OK) :=
  ⟨by norm_num,
    distance_bucket_classification.1 DistV3.fresh 640 478 (1/10) (by norm_num)⟩

/-- Uncalibrated detector holding one recorded blink. -/
def oneBlinkUncalibrated : BlinkDetector :=
  { BlinkDetector.init defaultBlinkConfig with
    blinkHistory := [{ timestamp := 1000, isComplete := true
                       minOpenness := 1/10, duration := 100 }] }

/-- Calibrated detector holding one recorded blink. -/
def oneBlinkCalibrated : BlinkDetector :=
  { oneBlinkUncalibrated with isCalibrated := true }

/-- C7 counterexample: (i) the quality-module variant at 25 fps with a
calibrated baseline returns confidence 0.8 — the claimed scheme (only the
0.7/0.85 fps discounts and the 0.5 calibration discount) yields 1.0 — so
an extra factor is applied; (ii) the engine-level detector at 22 fps,
uncalibrated, returns 0.43, not the exact product 0.85 * 0.5 = 0.425,
because the confidence is rounded to two decimals. -/
theorem metrics_confidence_counterexample :
    (oneBlinkCalibrated.calculateMetricsQuality 60 25).confidence = 4/5 ∧
    (4/5 : ℚ) ≠ 1 ∧
    (oneBlinkUncalibrated.calculateMetrics 60 22).confidence = 43/100 ∧
    (43/100 : ℚ) ≠ (17/20) * (1/2) := by
  refine ⟨?_, by norm_num, ?_, by norm_num⟩
  · norm_num [oneBlinkCalibrated, oneBlinkUncalibrated, BlinkDetector.init,
      BlinkDetector.calculateMetricsQuality, roundTo1, roundTo2, round_eq]
  · norm_num [oneBlinkUncalibrated, BlinkDetector.init,
      BlinkDetector.calculateMetrics, roundTo1, roundTo2, round_eq]

/-- C7 (amended): with at least one recorded blink, the engine-level
detector's confidence is the product of the fps discount (0.7 below
20 fps, else 0.85 below 24 fps) and the calibration discount (0.5 when
uncalibrated), rounded to two decimals; the quality-module variant
additionally multiplies by 0.8 whenever avgFps < 30. -/
theorem metrics_confidence_factors :
    (∀ (d : BlinkDetector) (dur fps : ℚ), d.blinkHistory ≠ [] →
      (d.calculateMetrics dur fps).confidence =
        roundTo2 ((if fps < 20 then 7/10 else if fps < 24 then 17/20 else 1) *
          (if d.isCalibrated then 1 else 1/2))) ∧
    (∀ (d : BlinkDetector) (dur fps : ℚ), d.blinkHistory ≠ [] →
      (d.calculateMetricsQuality dur fps).confidence =
        roundTo2 ((if fps < 20 then 7/10 else if fps < 24 then 17/20 else 1) *
          (if d.isCalibrated then 1 else 1/2) * (if fps < 30 then 4/5 else 1))) := by
  constructor
  · intro d dur fps h
    unfold BlinkDetector.calculateMetrics
    rw [if_neg h]
    cases hc : d.isCalibrated <;> simp only [hc, Bool.not_false, Bool.not_true] <;>
      split_ifs <;> first | contradiction | norm_num
  · intro d dur fps h
    unfold BlinkDetector.calculateMetricsQuality
    rw [if_neg h]
    cases hc : d.isCalibrated <;> simp only [hc, Bool.not_false, Bool.not_true] <;>
      split_ifs <;> first | contradiction | norm_num

/-- Witness for C7: the amended confidence formula at the concrete
uncalibrated one-blink detector, 22 fps. -/
theorem metrics_confidence_factors_witness :
    oneBlinkUncalibrated.blinkHistory ≠ [] ∧
    (oneBlinkUncalibrated.calculateMetrics 60 22).confidence =
      roundTo2 ((if (22:ℚ) < 20 then 7/10 else if (22:ℚ) < 24 then 17/20 else 1) *
        (if oneBlinkUncalibrated.isCalibrated then 1 else 1/2)) :=
  ⟨by simp [oneBlinkUncalibrated, BlinkDetector.init],
    metrics_confidence_factors.1 oneBlinkUncalibrated 60 22
      (by simp [oneBlinkUncalibrated, BlinkDetector.init])⟩

/-- C10 counterexample: were the discount scheme applied, it would not
always stay at or above 0.35 — the quality-module variant at 19 fps with
an uncalibrated baseline and one recorded blink returns confidence 0.28
(= 0.7 * 0.5 * 0.8), which is below 0.35. -/
theorem empty_history_floor_counterexample :
    (oneBlinkUncalibrated.calculateMetricsQuality 60 19).confidence = 7/25 ∧
    (7/25 : ℚ) < 7/20 := by
  refine ⟨?_, by norm_num⟩
  norm_num [oneBlinkUncalibrated, BlinkDetector.init,
    BlinkDetector.calculateMetricsQuality, roundTo1, roundTo2, round_eq]

/-- C10 (amended): with an empty blink history both `calculateMetrics`
variants return all-zero metrics with confidence exactly 0, regardless of
avgFps and of calibration; with a nonempty history the discount scheme
keeps confidence at or above 0.35 in the engine-level detector and at or
above 0.28 in the quality-module variant. -/
theorem empty_history_zero_metrics :
    (∀ (d : BlinkDetector) (dur fps : ℚ), d.blinkHistory = [] →
      d.calculateMetrics dur fps =
        { blinkCount := 0, blinkRate := 0, incompleteBlinkCount := 0
          incompleteBlinkRatio := 0, confidence := 0 }) ∧
    (∀ (d : BlinkDetector) (dur fps : ℚ), d.blinkHistory = [] →
      d.calculateMetricsQuality dur fps =
        { blinkCount := 0, blinkRate := 0, incompleteBlinkCount := 0
          incompleteBlinkRatio := 0, confidence := 0 }) ∧
    (∀ (d : BlinkDetector) (dur fps : ℚ), d.blinkHistory ≠ [] →
      7/20 ≤ (d.calculateMetrics dur fps).confidence) ∧
    (∀ (d : BlinkDetector) (dur fps : ℚ), d.blinkHistory ≠ [] →
      7/25 ≤ (d.calculateMetricsQuality dur fps).confidence) := by
  refine ⟨?_, ?_, ?_, ?_⟩
  · intro d dur fps h
    unfold BlinkDetector.calculateMetrics
    rw [if_pos h]
  · intro d dur fps h
    unfold BlinkDetector.calculateMetricsQuality
    rw [if_pos h]
  · intro d dur fps h
    unfold BlinkDetector.calculateMetrics
    rw [if_neg h]
    cases hc : d.isCalibrated <;> simp only [hc, Bool.not_false, Bool.not_true] <;>
      split_ifs <;> first | contradiction | norm_num [roundTo2, round_eq]
  · intro d dur fps h
    unfold BlinkDetector.calculateMetricsQuality
    rw [if_neg h]
    cases hc : d.isCalibrated <;> simp only [hc, Bool.not_false, Bool.not_true] <;>
      split_ifs <;> first | contradiction | norm_num [roundTo2, round_eq]

/-- Witness for C10: a detector with empty history produces the all-zero
metrics at 30 fps. -/
theorem empty_history_zero_metrics_witness :
    (BlinkDetector.init defaultBlinkConfig).blinkHistory = [] ∧
    (BlinkDetector.init defaultBlinkConfig).calculateMetrics 20 30 =
      { blinkCount := 0, blinkRate := 0, incompleteBlinkCount := 0
        incompleteBlinkRatio := 0, confidence := 0 } :=
  ⟨rfl, empty_history_zero_metrics.1 (BlinkDetector.init defaultBlinkConfig) 20 30 rfl⟩
